import Mathlib

/-!
Shallow embedding of `python/src/dataset/commit.rs` from the lance repository:
the PyO3 adapter that bridges Python-side commit-lock and external-manifest-store
implementations into the Rust `CommitLock` / `CommitLease` /
`ExternalManifestStore` traits. Python calls are modelled as explicit inputs
(`Except PyErr PyObject` results of the backend), and the adapter functions are
translated line by line from the Rust source. The Python-side store backend
itself is not part of this crate; where a claim needs its semantics, it is
modelled from the spec and marked as such in its doc comment.
-/

namespace LanceCommit

/-- A Python exception value as the adapter observes it: whether it is an
instance of `lance.commit.CommitConflictError`, whether it is an instance of
`KeyError`, and its display message. -/
structure PyErr where
  isConflictInstance : Bool
  isKeyErrorInstance : Bool
  message : String
deriving DecidableEq

/-- A Python object value as the adapter observes it: the shapes the adapter
extracts from (`None`, `str`, `int`, 2-tuples) plus an opaque remainder. -/
inductive PyObject where
  | pyNone
  | pyStr (s : String)
  | pyInt (n : Nat)
  | pyTuple2 (a b : PyObject)
  | pyOther (tag : String)
deriving DecidableEq

/-- The `lance_core::Error` variants produced by this adapter: `NotFound` with a
uri, `Internal` with a message (source locations are dropped), and the conflict
taxon used by the `Error::from(CommitError)` conversion. -/
inductive Error where
  | NotFound (uri : String)
  | Internal (message : String)
  | Conflict (message : String)
deriving DecidableEq

/-- `lance_table::io::commit::CommitError` as used here: a commit conflict, or
another wrapped error. -/
inductive CommitError where
  | CommitConflict
  | OtherError (e : Error)
deriving DecidableEq

/-- The result of the one-time lazy import of `lance.commit.CommitConflictError`
(`PY_CONFLICT_ERROR` in the source): either the type is available, or the import
failed with some Python error. -/
def ImportState : Type := Except PyErr Unit

/-- Translation of `handle_error` (commit.rs lines 35-54): if the one-time
lazy load of `CommitConflictError` failed, every error becomes
`Internal ("Error importing from pylance ...")`; otherwise an exception that is
an instance of `CommitConflictError` becomes `CommitConflict` and anything else
becomes `Internal ("Error from commit handler: ...")`. -/
def handle_error (conflictImport : ImportState) (py_err : PyErr) : CommitError :=
  match conflictImport with
  | .error import_error =>
      .OtherError (.Internal ("Error importing from pylance " ++ import_error.message))
  | .ok _ =>
      if py_err.isConflictInstance then
        .CommitConflict
      else
        .OtherError (.Internal ("Error from commit handler: " ++ py_err.message))

/-- Modelled from the spec: the conversion `Error::from(CommitError)` lives in
`lance_table::io::commit`, outside the sources of this crate. Per the closed spec
taxonomy, a commit conflict maps to the Conflict taxon and an already-wrapped
error passes through unchanged. -/
def errorFromCommit : CommitError → Error
  | .CommitConflict => .Conflict "Commit conflict"
  | .OtherError e => e

/-- `result.extract::<String>(py)` succeeds exactly on Python `str` values. -/
def extractString : PyObject → Option String
  | .pyStr s => some s
  | _ => none

/-- `result.extract::<(u64, String)>(py)` succeeds exactly on a 2-tuple of a
Python int that fits in a `u64` and a `str`. -/
def extractVersionPath : PyObject → Option (Nat × String)
  | .pyTuple2 (.pyInt n) (.pyStr s) => if n < 2 ^ 64 then some (n, s) else none
  | _ => none

namespace PyExternalManifestStore

/-- Translation of `PyExternalManifestStore::get` (commit.rs lines 168-191).
`callResult` is the outcome of calling the `get` method of the Python backend.
A `KeyError` becomes `NotFound ("{base_uri}@{version}")`; any other Python
error becomes `Internal`; a successful call is extracted as a string, with an
extraction failure reported as `Internal`. -/
def get (base_uri : String) (version : Nat) (callResult : Except PyErr PyObject) :
    Except Error String :=
  match callResult with
  | .error err =>
      if err.isKeyErrorInstance then
        .error (.NotFound (base_uri ++ "@" ++ toString version))
      else
        .error (.Internal ("Error from external store get: " ++ err.message))
  | .ok result =>
      match extractString result with
      | some s => .ok s
      | none => .error (.Internal "Failed to extract string from get result")

/-- Translation of `PyExternalManifestStore::get_latest_version` (commit.rs
lines 193-217). Every Python error becomes `Internal`; Python `None` becomes
`none`; otherwise the result is extracted as a `(u64, String)` tuple, with an
extraction failure reported as `Internal`. -/
def get_latest_version (callResult : Except PyErr PyObject) :
    Except Error (Option (Nat × String)) :=
  match callResult with
  | .error err =>
      .error (.Internal ("Error from external store get_latest_version: " ++ err.message))
  | .ok result =>
      if result = PyObject.pyNone then
        .ok none
      else
        match extractVersionPath result with
        | some t => .ok (some t)
        | none =>
            .error (.Internal
              "Failed to extract (version, path) tuple from get_latest_version result")

/-- Translation of `PyExternalManifestStore::put_if_not_exists` (commit.rs
lines 219-243). `callResult` is the outcome of calling the method
`put_if_not_exists` of the Python backend; an error is classified by `handle_error` and then
converted via `Error::from`. -/
def put_if_not_exists (conflictImport : ImportState)
    (callResult : Except PyErr PyObject) : Except Error Unit :=
  match callResult with
  | .error err => .error (errorFromCommit (handle_error conflictImport err))
  | .ok _ => .ok ()

end PyExternalManifestStore

/-- Arguments the adapter passes to the exit method of a Python context manager:
three `None`s on success, or the restored `IOError` exception info on failure. -/
inductive ExitArgs where
  | allNone
  | excInfo (message : String)
deriving DecidableEq

/-- One Python call the lock adapter makes, recorded for trace reasoning. -/
inductive PyCall where
  | callWith (version : Nat)
  | enterCall
  | exitCall (args : ExitArgs)
deriving DecidableEq

/-- The Python lock backend as the adapter sees it: calling the lock object
with a version, and calling the enter / exit methods of the returned lease
context manager. -/
structure LockBackend where
  call : Nat → Except PyErr PyObject
  enterMethod : PyObject → Except PyErr PyObject
  exitMethod : PyObject → ExitArgs → Except PyErr PyObject

/-- The wrapped lease object returned by a successful `lock`. -/
structure PyCommitLease where
  inner : PyObject
deriving DecidableEq

/-- Translation of `PyCommitLock::lock` (commit.rs lines 84-97): call the inner
Python object with `(version,)`, then call the enter method of the returned
lease; each Python error is classified by `handle_error` and returned. The
second component is the trace of Python calls the adapter made. -/
def PyCommitLock.lock (conflictImport : ImportState) (backend : LockBackend)
    (version : Nat) : Except CommitError PyCommitLease × List PyCall :=
  match backend.call version with
  | .error err => (.error (handle_error conflictImport err), [.callWith version])
  | .ok lease =>
      match backend.enterMethod lease with
      | .error err =>
          (.error (handle_error conflictImport err), [.callWith version, .enterCall])
      | .ok _ => (.ok ⟨lease⟩, [.callWith version, .enterCall])

/-- Translation of `PyCommitLease::release` (commit.rs lines 105-136): on
`success = true` the exit method is called with `(None, None, None)`; on
`success = false` a `PyIOError ("commit failed")` is restored and its
`sys.exc_info()` triple is passed to the exit method. A Python error from the
exit call is classified by `handle_error`; the return value of the exit method is
discarded. The second component is the trace of exit calls made. -/
def PyCommitLease.release (conflictImport : ImportState) (backend : LockBackend)
    (lease : PyCommitLease) (success : Bool) :
    Except CommitError Unit × List PyCall :=
  let args : ExitArgs := if success then .allNone else .excInfo "commit failed"
  match backend.exitMethod lease.inner args with
  | .error err => (.error (handle_error conflictImport err), [.exitCall args])
  | .ok _ => (.ok (), [.exitCall args])

/-- A durable manifest record: path, size and optional ETag. -/
structure ManifestRecord where
  path : String
  size : Nat
  etag : Option String
deriving DecidableEq

/-- Modelled from the spec: the Python-side external store implementation is
not part of the sources of this crate. Per the spec it is a strongly-consistent
index of `(base_uri, version) -> ManifestRecord` entries. -/
structure StoreState where
  entries : List ((String × Nat) × ManifestRecord)
deriving DecidableEq

/-- The record the store holds for `(b, v)`, if any. -/
def StoreState.lookup (s : StoreState) (b : String) (v : Nat) :
    Option ManifestRecord :=
  (s.entries.find? (fun e => decide (e.1 = (b, v)))).map (fun e => e.2)

/-- All version numbers the store knows for a given `base_uri`. -/
def StoreState.versionsFor (s : StoreState) (b : String) : List Nat :=
  (s.entries.filter (fun e => decide (e.1.1 = b))).map (fun e => e.1.2)

/-- The concrete `CommitConflictError` exception the spec-modelled store
raises when an entry is already present. -/
def conflictErr : PyErr := ⟨true, false, "commit conflict"⟩

/-- Modelled from the spec: `put_if_not_exists` on the backing store atomically
creates the mapping iff the `(base_uri, version)` entry is absent, and raises
`CommitConflictError` iff it is already present, leaving the store unchanged. -/
def specPutIfNotExists (s : StoreState) (b : String) (v : Nat)
    (r : ManifestRecord) : Except PyErr PyObject × StoreState :=
  match s.lookup b v with
  | some _ => (.error conflictErr, s)
  | none => (.ok .pyNone, ⟨((b, v), r) :: s.entries⟩)

/-- Maximum of a list of naturals, `none` on the empty list. -/
def maxNat : List Nat → Option Nat
  | [] => none
  | v :: vs =>
      match maxNat vs with
      | none => some v
      | some m => some (if v ≤ m then m else v)

/-- Modelled from the spec: `get_latest_version` on the backing store returns
Python `None` when the dataset has never been committed, and otherwise the
`(version, path)` pair of the highest known version. -/
def specGetLatest (s : StoreState) (b : String) : PyObject :=
  match maxNat (s.versionsFor b) with
  | none => .pyNone
  | some m =>
      match s.lookup b m with
      | some r => .pyTuple2 (.pyInt m) (.pyStr r.path)
      | none => .pyNone

/-- The adapter-level `put_if_not_exists` composed with the spec-modelled store:
runs one store-level conditional create and classifies the outcome exactly as
`PyExternalManifestStore::put_if_not_exists` does. -/
def putIfNotExistsFull (conflictImport : ImportState) (s : StoreState)
    (b : String) (v : Nat) (r : ManifestRecord) :
    Except Error Unit × StoreState :=
  let step := specPutIfNotExists s b v r
  (PyExternalManifestStore.put_if_not_exists conflictImport step.1, step.2)

/-- A sequence of adapter-level `put_if_not_exists` attempts for the same
`(base_uri, version)`, applied in linearization order; returns the list of
per-attempt results and the final store state. -/
def runPuts (conflictImport : ImportState) (s : StoreState) (b : String)
    (v : Nat) : List ManifestRecord → List (Except Error Unit) × StoreState
  | [] => ([], s)
  | r :: rest =>
      let step := putIfNotExistsFull conflictImport s b v r
      let tail := runPuts conflictImport step.2 b v rest
      (step.1 :: tail.1, tail.2)

/-- A lock backend that always grants the lease and whose context-manager
methods succeed. -/
def grantingLockBackend : LockBackend where
  call := fun _ => .ok (.pyOther "lease")
  enterMethod := fun _ => .ok .pyNone
  exitMethod := fun _ _ => .ok .pyNone

/-- A lock backend whose service reports the version as already held by
raising `CommitConflictError`. -/
def heldLockBackend : LockBackend where
  call := fun _ => .error ⟨true, false, "version already held"⟩
  enterMethod := fun _ => .ok .pyNone
  exitMethod := fun _ _ => .ok .pyNone

/-- A lock backend that returns a lease object whose enter method raises. -/
def enterFailingLockBackend : LockBackend where
  call := fun _ => .ok (.pyOther "lease")
  enterMethod := fun _ => .error ⟨false, false, "enter failed"⟩
  exitMethod := fun _ _ => .ok .pyNone

/-- A store with a single committed version, used to instantiate theorems. -/
def sampleStore : StoreState := ⟨[(("b", 1), ⟨"p1", 10, none⟩)]⟩

/- ------------------------------------------------------------------ -/
/- Helper lemmas (shared across the claim theorems below).            -/
/- ------------------------------------------------------------------ -/

/-- `handle_error` only ever produces `CommitConflict` or an `Internal` error:
the closed-taxonomy property of the classifier. -/
theorem handle_error_taxonomy (conflictImport : ImportState) (err : PyErr) :
    handle_error conflictImport err = .CommitConflict ∨
      ∃ msg, handle_error conflictImport err = .OtherError (.Internal msg) := by
  cases conflictImport with
  | error e => exact Or.inr ⟨_, rfl⟩
  | ok u =>
      cases h : err.isConflictInstance
      · refine Or.inr ⟨"Error from commit handler: " ++ err.message, ?_⟩
        simp [handle_error, h]
      · exact Or.inl (by simp [handle_error, h])

/-- `maxNat` is `none` exactly on the empty list. -/
theorem maxNat_eq_none_iff (l : List Nat) : maxNat l = none ↔ l = [] := by
  cases l with
  | nil => simp [maxNat]
  | cons v vs => cases h : maxNat vs <;> simp [maxNat, h]

/-- A value returned by `maxNat` is a member of the list and bounds it. -/
theorem maxNat_spec (l : List Nat) :
    ∀ m, maxNat l = some m → m ∈ l ∧ ∀ x ∈ l, x ≤ m := by
  induction l with
  | nil => intro m h; simp [maxNat] at h
  | cons v vs ih =>
      intro m h
      cases hv : maxNat vs with
      | none =>
          simp only [maxNat, hv] at h
          have hm := Option.some.inj h
          subst hm
          have hvs : vs = [] := (maxNat_eq_none_iff vs).mp hv
          subst hvs
          simp
      | some m2 =>
          simp only [maxNat, hv] at h
          have hm := Option.some.inj h
          subst hm
          obtain ⟨hmem, hle⟩ := ih m2 hv
          by_cases hc : v ≤ m2
          · constructor
            · simp only [if_pos hc]
              exact List.mem_cons_of_mem v hmem
            · intro x hx
              simp only [if_pos hc]
              rcases List.mem_cons.mp hx with hx | hx
              · subst hx; exact hc
              · exact hle x hx
          · constructor
            · simp only [if_neg hc]
              exact List.mem_cons_self v vs
            · intro x hx
              simp only [if_neg hc]
              rcases List.mem_cons.mp hx with hx | hx
              · subst hx; exact Nat.le.refl
              · exact le_trans (hle x hx) (le_of_not_le hc)

/-- A member that bounds the whole list is what `maxNat` returns. -/
theorem maxNat_eq_of_mem_of_le (l : List Nat) (m : Nat) (hm : m ∈ l)
    (hle : ∀ x ∈ l, x ≤ m) : maxNat l = some m := by
  cases hmx : maxNat l with
  | none =>
      rw [(maxNat_eq_none_iff l).mp hmx] at hm
      simp at hm
  | some m2 =>
      obtain ⟨hmem2, hle2⟩ := maxNat_spec l m2 hmx
      exact congrArg some (Nat.le_antisymm (hle m2 hmem2) (hle2 m hm))

/-- Any version listed in `versionsFor` has a record in the store. -/
theorem lookup_isSome_of_mem_versionsFor (s : StoreState) (b : String) (m : Nat)
    (h : m ∈ s.versionsFor b) : ∃ r, s.lookup b m = some r := by
  unfold StoreState.versionsFor at h
  obtain ⟨e, he, hkey⟩ := List.mem_map.mp h
  obtain ⟨hmem, hfilter⟩ := List.mem_filter.mp he
  have hb : e.1.1 = b := of_decide_eq_true hfilter
  have hsome : (s.entries.find? (fun e2 => decide (e2.1 = (b, m)))).isSome := by
    rw [List.find?_isSome]
    exact ⟨e, hmem, decide_eq_true (Prod.ext hb hkey)⟩
  obtain ⟨e2, hfind⟩ := Option.isSome_iff_exists.mp hsome
  exact ⟨e2.2, by simp [StoreState.lookup, hfind]⟩

/-- Looking up the key just inserted at the head of the store returns its
record. -/
theorem lookup_cons_self (es : List ((String × Nat) × ManifestRecord))
    (k : String × Nat) (r : ManifestRecord) :
    StoreState.lookup ⟨(k, r) :: es⟩ k.1 k.2 = some r := by
  unfold StoreState.lookup
  rw [List.find?_cons_of_pos]
  · rfl
  · simp

/-- Inserting a record for one key leaves lookups of any other key unchanged. -/
theorem lookup_cons_ne (es : List ((String × Nat) × ManifestRecord))
    (k : String × Nat) (r : ManifestRecord) (b2 : String) (v2 : Nat)
    (hne : (b2, v2) ≠ k) :
    StoreState.lookup ⟨(k, r) :: es⟩ b2 v2 = StoreState.lookup ⟨es⟩ b2 v2 := by
  unfold StoreState.lookup
  congr 1
  apply List.find?_cons_of_neg
  simp only [decide_eq_true_eq]
  exact fun hc => hne hc.symm

/-- Once a record exists for `(b, v)`, a run of `put_if_not_exists` attempts for
that key returns Conflict for every attempt and leaves the store unchanged. -/
theorem runPuts_all_conflict (s : StoreState) (b : String) (v : Nat)
    (r : ManifestRecord) (recs : List ManifestRecord)
    (h : s.lookup b v = some r) :
    runPuts (.ok ()) s b v recs =
      (recs.map (fun _ => .error (.Conflict "Commit conflict")), s) := by
  induction recs with
  | nil => rfl
  | cons r2 rest ih =>
      simp [runPuts, putIfNotExistsFull, specPutIfNotExists, h,
        PyExternalManifestStore.put_if_not_exists, handle_error, errorFromCommit,
        conflictErr, ih]

/- ------------------------------------------------------------------ -/
/- Claim theorems.                                                    -/
/- ------------------------------------------------------------------ -/

/-- Claim C1, counterexample: when the one-time import of
`lance.commit.CommitConflictError` has failed, an exception that IS an instance
of `CommitConflictError` is classified as `Internal`, not `CommitConflict`,
refuting the unconditional classification stated by the claim. -/
theorem C1_counterexample :
    (PyErr.mk true false "commit conflict").isConflictInstance = true ∧
      handle_error (.error (PyErr.mk false false "pylance missing"))
          (PyErr.mk true false "commit conflict") ≠ CommitError.CommitConflict := by
  constructor
  · rfl
  · simp [handle_error]

/-- Claim C1 (amended): provided the one-time import of `CommitConflictError`
succeeded, `handle_error` classifies an exception as `CommitConflict` exactly
when it is an instance of `CommitConflictError` and as `Internal` otherwise;
and in every case (import failed included) the result lies within the closed
taxonomy, being either `CommitConflict` or an `Internal` error. -/
theorem C1_classification_amended (conflictImport : ImportState) (err : PyErr) :
    (conflictImport = Except.ok () →
      handle_error conflictImport err =
        (if err.isConflictInstance then CommitError.CommitConflict
         else .OtherError
           (.Internal ("Error from commit handler: " ++ err.message)))) ∧
    (handle_error conflictImport err = .CommitConflict ∨
      ∃ msg, handle_error conflictImport err = .OtherError (.Internal msg)) := by
  constructor
  · intro h
    subst h
    rfl
  · exact handle_error_taxonomy conflictImport err

/-- Claim C1, witness for the amended theorem at a concrete input. -/
theorem C1_witness :
    handle_error (Except.ok ()) conflictErr =
      (if conflictErr.isConflictInstance then CommitError.CommitConflict
       else .OtherError
         (.Internal ("Error from commit handler: " ++ conflictErr.message))) :=
  (C1_classification_amended (Except.ok ()) conflictErr).1 rfl

/-- Claim C2: `get` returns the path string the backend produced; a `KeyError`
from the backend (a simply-absent version) becomes `NotFound` with the
`base_uri@version` uri, never `Internal`; any other backend fault becomes
`Internal`. -/
theorem C2_get_classification (b : String) (v : Nat) :
    (∀ s : String, PyExternalManifestStore.get b v (.ok (.pyStr s)) = .ok s) ∧
    (∀ err : PyErr, err.isKeyErrorInstance = true →
      PyExternalManifestStore.get b v (.error err) =
        .error (.NotFound (b ++ "@" ++ toString v))) ∧
    (∀ err : PyErr, err.isKeyErrorInstance = false →
      PyExternalManifestStore.get b v (.error err) =
        .error (.Internal ("Error from external store get: " ++ err.message))) := by
  refine ⟨fun s => rfl, fun err h => ?_, fun err h => ?_⟩ <;>
    simp [PyExternalManifestStore.get, h]

/-- Claim C2, witness: a known version round-trips its path, and a `KeyError`
for version 99 yields `NotFound "b@99"`. -/
theorem C2_witness :
    PyExternalManifestStore.get "b" 3 (.ok (.pyStr "p3")) = .ok "p3" ∧
    PyExternalManifestStore.get "b" 99 (.error ⟨false, true, "missing"⟩) =
      .error (.NotFound "b@99") :=
  ⟨(C2_get_classification "b" 3).1 "p3",
   (C2_get_classification "b" 99).2.1 ⟨false, true, "missing"⟩ rfl⟩

/-- Claim C8: when the one-time import of `lance.commit.CommitConflictError`
failed, every Python exception — a genuine backend conflict included — is
classified as `Internal` with an import-error message, never as `Conflict`. -/
theorem C8_import_failure_all_internal (import_error err : PyErr) :
    handle_error (.error import_error) err =
      .OtherError
        (.Internal ("Error importing from pylance " ++ import_error.message)) ∧
    handle_error (.error import_error) err ≠ .CommitConflict := by
  constructor
  · rfl
  · simp [handle_error]

/-- Claim C8, witness: with a concrete failed import, a concrete conflict
exception is classified as `Internal` carrying the import-error message. -/
theorem C8_witness :
    handle_error (.error (PyErr.mk false false "no pylance"))
        (PyErr.mk true false "commit conflict") =
      .OtherError
        (.Internal ("Error importing from pylance " ++ "no pylance")) :=
  (C8_import_failure_all_internal (PyErr.mk false false "no pylance")
    (PyErr.mk true false "commit conflict")).1

/-- Claim C10: malformed backend return values are total-function `Internal`
errors describing the extraction failure: a non-string from `get`, and a
non-`None` value from `get_latest_version` that is not a `(u64, str)` tuple. -/
theorem C10_malformed_results (b : String) (v : Nat) (o : PyObject) :
    (extractString o = none →
      PyExternalManifestStore.get b v (.ok o) =
        .error (.Internal "Failed to extract string from get result")) ∧
    (o ≠ .pyNone → extractVersionPath o = none →
      PyExternalManifestStore.get_latest_version (.ok o) =
        .error (.Internal
          "Failed to extract (version, path) tuple from get_latest_version result")) := by
  constructor
  · intro h
    simp [PyExternalManifestStore.get, h]
  · intro h1 h2
    simp [PyExternalManifestStore.get_latest_version, h1, h2]

/-- Claim C10, witness: an int where `get` expects a string, and a bare string
where `get_latest_version` expects a tuple, both yield `Internal`. -/
theorem C10_witness :
    PyExternalManifestStore.get "b" 1 (.ok (.pyInt 5)) =
      .error (.Internal "Failed to extract string from get result") ∧
    PyExternalManifestStore.get_latest_version (.ok (.pyStr "oops")) =
      .error (.Internal
        "Failed to extract (version, path) tuple from get_latest_version result") :=
  ⟨(C10_malformed_results "b" 1 (.pyInt 5)).1 rfl,
   (C10_malformed_results "b" 1 (.pyStr "oops")).2 (by simp) rfl⟩

/-- Claim C4: `lock(version)` calls the mutual-exclusion service for the
version and wraps the granted lease; it fails `CommitConflict` when the service
raises `CommitConflictError` (version already held/claimed) and `Internal` for
any other service fault, and an error from the enter method of the lease is
classified through the same handler (stated with the one-time
conflict-type imported successfully). -/
theorem C4_lock_classification (backend : LockBackend) (version : Nat) :
    (∀ lease x, backend.call version = .ok lease →
      backend.enterMethod lease = .ok x →
      (PyCommitLock.lock (.ok ()) backend version).1 = .ok ⟨lease⟩) ∧
    (∀ err : PyErr, backend.call version = .error err →
      err.isConflictInstance = true →
      (PyCommitLock.lock (.ok ()) backend version).1 = .error .CommitConflict) ∧
    (∀ err : PyErr, backend.call version = .error err →
      err.isConflictInstance = false →
      (PyCommitLock.lock (.ok ()) backend version).1 =
        .error (.OtherError
          (.Internal ("Error from commit handler: " ++ err.message)))) ∧
    (∀ lease (err : PyErr), backend.call version = .ok lease →
      backend.enterMethod lease = .error err →
      (PyCommitLock.lock (.ok ()) backend version).1 =
        .error (handle_error (.ok ()) err)) := by
  refine ⟨fun lease x hcall hent => ?_, fun err hcall hconf => ?_,
    fun err hcall hconf => ?_, fun lease err hcall hent => ?_⟩
  · simp [PyCommitLock.lock, hcall, hent]
  · simp [PyCommitLock.lock, hcall, handle_error, hconf]
  · simp [PyCommitLock.lock, hcall, handle_error, hconf]
  · simp [PyCommitLock.lock, hcall, hent]

/-- Claim C4, witness: a granting service yields the lease; a service reporting
the version as already held yields `CommitConflict`. -/
theorem C4_witness :
    (PyCommitLock.lock (.ok ()) grantingLockBackend 7).1 =
      .ok ⟨.pyOther "lease"⟩ ∧
    (PyCommitLock.lock (.ok ()) heldLockBackend 7).1 =
      .error .CommitConflict :=
  ⟨(C4_lock_classification grantingLockBackend 7).1 (.pyOther "lease") .pyNone
      rfl rfl,
   (C4_lock_classification heldLockBackend 7).2.1
      ⟨true, false, "version already held"⟩ rfl rfl⟩

/-- Claim C5: `release(true)` makes exactly one exit call with `(None, None,
None)` while `release(false)` makes exactly one exit call carrying the restored
`IOError ("commit failed")` exception info; a successful exit call yields `ok`,
and any failure is classified within the taxonomy as `CommitConflict` or an
`Internal` error. -/
theorem C5_release_semantics (conflictImport : ImportState)
    (backend : LockBackend) (lease : PyCommitLease) (success : Bool) :
    (PyCommitLease.release conflictImport backend lease success).2 =
      [.exitCall (if success then .allNone else .excInfo "commit failed")] ∧
    (∀ x, backend.exitMethod lease.inner
        (if success then .allNone else .excInfo "commit failed") = .ok x →
      (PyCommitLease.release conflictImport backend lease success).1 = .ok ()) ∧
    (∀ e, (PyCommitLease.release conflictImport backend lease success).1 =
        .error e →
      e = .CommitConflict ∨ ∃ msg, e = .OtherError (.Internal msg)) := by
  refine ⟨?_, fun x hx => ?_, fun e he => ?_⟩
  · cases hx : backend.exitMethod lease.inner
        (if success then .allNone else .excInfo "commit failed") <;>
      simp [PyCommitLease.release, hx]
  · simp [PyCommitLease.release, hx]
  · cases hx : backend.exitMethod lease.inner
        (if success then .allNone else .excInfo "commit failed") with
    | error err =>
        simp [PyCommitLease.release, hx] at he
        rcases handle_error_taxonomy conflictImport err with h | ⟨msg, h⟩
        · exact Or.inl (by rw [← he, h])
        · exact Or.inr ⟨msg, by rw [← he, h]⟩
    | ok x => simp [PyCommitLease.release, hx] at he

/-- Claim C5, witness: releasing with success makes the `(None, None, None)`
exit call, and releasing with failure on a well-behaved backend returns ok. -/
theorem C5_witness :
    (PyCommitLease.release (.ok ()) grantingLockBackend
        ⟨.pyOther "lease"⟩ true).2 = [.exitCall .allNone] ∧
    (PyCommitLease.release (.ok ()) grantingLockBackend
        ⟨.pyOther "lease"⟩ false).1 = .ok () :=
  ⟨(C5_release_semantics (.ok ()) grantingLockBackend ⟨.pyOther "lease"⟩
      true).1,
   (C5_release_semantics (.ok ()) grantingLockBackend ⟨.pyOther "lease"⟩
      false).2.1 .pyNone rfl⟩

/-- Claim C9: when the enter method of the lease object raises, `lock` returns the
classified error, and `lock` never makes an exit (release) call on any path —
in particular none on a lease whose acquisition did not complete. -/
theorem C9_enter_failure_no_release (conflictImport : ImportState)
    (backend : LockBackend) (version : Nat) :
    (∀ lease (err : PyErr), backend.call version = .ok lease →
      backend.enterMethod lease = .error err →
      (PyCommitLock.lock conflictImport backend version).1 =
        .error (handle_error conflictImport err)) ∧
    (∀ args, PyCall.exitCall args ∉
      (PyCommitLock.lock conflictImport backend version).2) := by
  constructor
  · intro lease err hcall hent
    simp [PyCommitLock.lock, hcall, hent]
  · intro args
    cases hcall : backend.call version with
    | error err => simp [PyCommitLock.lock, hcall]
    | ok lease =>
        cases hent : backend.enterMethod lease <;>
          simp [PyCommitLock.lock, hcall, hent]

/-- Claim C9, witness: with a backend whose enter method raises, `lock` returns
the classified error and its trace contains no exit call. -/
theorem C9_witness :
    (PyCommitLock.lock (.ok ()) enterFailingLockBackend 7).1 =
      .error (handle_error (.ok ()) ⟨false, false, "enter failed"⟩) ∧
    PyCall.exitCall .allNone ∉
      (PyCommitLock.lock (.ok ()) enterFailingLockBackend 7).2 :=
  ⟨(C9_enter_failure_no_release (.ok ()) enterFailingLockBackend 7).1
      (.pyOther "lease") ⟨false, false, "enter failed"⟩ rfl rfl,
   (C9_enter_failure_no_release (.ok ()) enterFailingLockBackend 7).2 .allNone⟩

/-- Claim C3: against the spec-modelled store, `put_if_not_exists` succeeds and
creates the mapping iff the `(base_uri, version)` entry is absent; it fails
with the Conflict taxon iff the entry is already present, leaving the store
unchanged (other keys are never touched); the adapter never produces
`NotFound`, and any non-conflict backend fault is classified `Internal`. -/
theorem C3_put_if_not_exists_semantics (s : StoreState) (b : String) (v : Nat)
    (p : String) (size : Nat) (etag : Option String) :
    (s.lookup b v = none →
      (putIfNotExistsFull (.ok ()) s b v ⟨p, size, etag⟩).1 = .ok () ∧
      (putIfNotExistsFull (.ok ()) s b v ⟨p, size, etag⟩).2.lookup b v =
        some ⟨p, size, etag⟩) ∧
    (∀ r, s.lookup b v = some r →
      (putIfNotExistsFull (.ok ()) s b v ⟨p, size, etag⟩).1 =
        .error (.Conflict "Commit conflict") ∧
      (putIfNotExistsFull (.ok ()) s b v ⟨p, size, etag⟩).2 = s) ∧
    (∀ b2 v2, (b2, v2) ≠ (b, v) →
      (putIfNotExistsFull (.ok ()) s b v ⟨p, size, etag⟩).2.lookup b2 v2 =
        s.lookup b2 v2) ∧
    (∀ (cimp : ImportState) callResult u,
      PyExternalManifestStore.put_if_not_exists cimp callResult ≠
        .error (.NotFound u)) ∧
    (∀ err : PyErr, err.isConflictInstance = false →
      PyExternalManifestStore.put_if_not_exists (.ok ()) (.error err) =
        .error (.Internal ("Error from commit handler: " ++ err.message))) := by
  refine ⟨fun h => ?_, fun r h => ?_, fun b2 v2 hne => ?_,
    fun cimp callResult u => ?_, fun err h => ?_⟩
  · constructor
    · simp [putIfNotExistsFull, specPutIfNotExists, h,
        PyExternalManifestStore.put_if_not_exists]
    · have hst : (putIfNotExistsFull (.ok ()) s b v ⟨p, size, etag⟩).2 =
          ⟨((b, v), ⟨p, size, etag⟩) :: s.entries⟩ := by
        simp [putIfNotExistsFull, specPutIfNotExists, h]
      rw [hst]
      exact lookup_cons_self s.entries (b, v) ⟨p, size, etag⟩
  · constructor <;>
      simp [putIfNotExistsFull, specPutIfNotExists, h,
        PyExternalManifestStore.put_if_not_exists, handle_error,
        errorFromCommit, conflictErr]
  · cases hl : s.lookup b v with
    | some r2 => simp [putIfNotExistsFull, specPutIfNotExists, hl]
    | none =>
        have hst : (putIfNotExistsFull (.ok ()) s b v ⟨p, size, etag⟩).2 =
            ⟨((b, v), ⟨p, size, etag⟩) :: s.entries⟩ := by
          simp [putIfNotExistsFull, specPutIfNotExists, hl]
        rw [hst]
        have := lookup_cons_ne s.entries (b, v) ⟨p, size, etag⟩ b2 v2 hne
        rw [this]
  · intro hcontra
    cases callResult with
    | ok val => simp [PyExternalManifestStore.put_if_not_exists] at hcontra
    | error err2 =>
        simp [PyExternalManifestStore.put_if_not_exists] at hcontra
        rcases handle_error_taxonomy cimp err2 with hh | ⟨msg, hh⟩ <;>
          rw [hh] at hcontra <;> simp [errorFromCommit] at hcontra
  · simp [PyExternalManifestStore.put_if_not_exists, handle_error, h,
      errorFromCommit]

/-- Claim C3, witness: creating version 3 of "b" in an empty store succeeds and
the mapping is durably recorded. -/
theorem C3_witness :
    (putIfNotExistsFull (.ok ()) ⟨[]⟩ "b" 3 ⟨"p3", 100, some "e3"⟩).1 =
      .ok () ∧
    (putIfNotExistsFull (.ok ()) ⟨[]⟩ "b" 3 ⟨"p3", 100, some "e3"⟩).2.lookup
      "b" 3 = some ⟨"p3", 100, some "e3"⟩ :=
  (C3_put_if_not_exists_semantics ⟨[]⟩ "b" 3 "p3" 100 (some "e3")).1 rfl

/-- Claim C6: against the spec-modelled store, `get_latest_version` returns
`none` when the dataset has never been committed and otherwise the highest
known `(version, path)` pair with the path of the record of that version; and for
any backend outcome whatsoever, its only failure mode is `Internal` — never
Conflict or NotFound. -/
theorem C6_get_latest_version_semantics (s : StoreState) (b : String) :
    (s.versionsFor b = [] →
      PyExternalManifestStore.get_latest_version (.ok (specGetLatest s b)) =
        .ok none) ∧
    (∀ m, m ∈ s.versionsFor b → (∀ x ∈ s.versionsFor b, x ≤ m) →
      m < 2 ^ 64 →
      ∃ r, s.lookup b m = some r ∧
        PyExternalManifestStore.get_latest_version (.ok (specGetLatest s b)) =
          .ok (some (m, r.path))) ∧
    (∀ callResult e,
      PyExternalManifestStore.get_latest_version callResult = .error e →
      ∃ msg, e = .Internal msg) := by
  refine ⟨fun h => ?_, fun m hmem hle hfit => ?_, fun callResult e he => ?_⟩
  · simp [specGetLatest, h, maxNat, PyExternalManifestStore.get_latest_version]
  · obtain ⟨r, hr⟩ := lookup_isSome_of_mem_versionsFor s b m hmem
    refine ⟨r, hr, ?_⟩
    have hmax : maxNat (s.versionsFor b) = some m :=
      maxNat_eq_of_mem_of_le _ m hmem hle
    have hfit2 : m < 18446744073709551616 := by omega
    simp [specGetLatest, hmax, hr, PyExternalManifestStore.get_latest_version,
      extractVersionPath, hfit2]
  · cases callResult with
    | error err =>
        simp [PyExternalManifestStore.get_latest_version] at he
        exact ⟨_, he.symm⟩
    | ok o =>
        by_cases ho : o = PyObject.pyNone
        · simp [PyExternalManifestStore.get_latest_version, ho] at he
        · cases hx : extractVersionPath o with
          | some t =>
              simp [PyExternalManifestStore.get_latest_version, ho, hx] at he
          | none =>
              simp [PyExternalManifestStore.get_latest_version, ho, hx] at he
              exact ⟨_, he.symm⟩

/-- Claim C6, witness: with one committed version the store reports it as the
latest, with its recorded path. -/
theorem C6_witness :
    ∃ r, sampleStore.lookup "b" 1 = some r ∧
      PyExternalManifestStore.get_latest_version
          (.ok (specGetLatest sampleStore "b")) = .ok (some (1, r.path)) :=
  (C6_get_latest_version_semantics sampleStore "b").2.1 1 (by decide)
    (by decide) (by decide)

/-- Claim C7: for any number of attempts racing on the same
`(base_uri, version)` key, applied in linearization order to a store where that
key is absent, exactly the first `put_if_not_exists` succeeds, every other
attempt returns Conflict, and the single durable record for the key is the
record of the winner. -/
theorem C7_exclusive_commit (s : StoreState) (b : String) (v : Nat)
    (r : ManifestRecord) (rest : List ManifestRecord)
    (h : s.lookup b v = none) :
    (runPuts (.ok ()) s b v (r :: rest)).1 =
      .ok () :: rest.map (fun _ => .error (.Conflict "Commit conflict")) ∧
    (runPuts (.ok ()) s b v (r :: rest)).2.lookup b v = some r := by
  have hstep : putIfNotExistsFull (.ok ()) s b v r =
      (.ok (), ⟨((b, v), r) :: s.entries⟩) := by
    simp [putIfNotExistsFull, specPutIfNotExists, h,
      PyExternalManifestStore.put_if_not_exists]
  have hlook : StoreState.lookup ⟨((b, v), r) :: s.entries⟩ b v = some r :=
    lookup_cons_self s.entries (b, v) r
  have hrest := runPuts_all_conflict ⟨((b, v), r) :: s.entries⟩ b v r rest hlook
  constructor
  · simp [runPuts, hstep, hrest]
  · simp [runPuts, hstep, hrest, hlook]

/-- Claim C7, witness: three attempts racing on version 5 of "b" — the first
wins, the other two get Conflict, and the record of the winner is durable. -/
theorem C7_witness :
    (runPuts (.ok ()) ⟨[]⟩ "b" 5
        [⟨"pA", 1, none⟩, ⟨"pB", 2, none⟩, ⟨"pC", 3, none⟩]).1 =
      [.ok (), .error (.Conflict "Commit conflict"),
        .error (.Conflict "Commit conflict")] ∧
    (runPuts (.ok ()) ⟨[]⟩ "b" 5
        [⟨"pA", 1, none⟩, ⟨"pB", 2, none⟩, ⟨"pC", 3, none⟩]).2.lookup "b" 5 =
      some ⟨"pA", 1, none⟩ :=
  C7_exclusive_commit ⟨[]⟩ "b" 5 ⟨"pA", 1, none⟩
    [⟨"pB", 2, none⟩, ⟨"pC", 3, none⟩] rfl

end LanceCommit
